import Mathlib

/-
Verification of the SaaS instance provisioning orchestrator (`saas_core`).

The development shallowly embeds the Python module `saas_core` :
pure computations (module-name resolution, command-string building, URL
computation, port search) become Lean functions over `String`, `Finset`
and `List`; the stateful deploy flow becomes explicit state passing over
an `Instance` record, with remote SSH effects supplied by an environment
record (`DeployEnv`) mapping each issued command to its outcome, and
Python exceptions modelled by an explicit `PyError` type threaded through
`Except`-style results.

String operations are re-implemented over `String.data` (lists of
characters) so that every definition is kernel-computable: Python
`sorted` is lexicographic comparison of code points, exactly `listLe`
below.
-/

namespace SaasCore

/-! ### Character-list string primitives (Python string semantics) -/

/-- Lexicographic comparison of two character lists by Unicode code point,
mirroring Python string comparison. -/
def listLe : List Char → List Char → Bool
  | [], _ => true
  | _ :: _, [] => false
  | a :: as, b :: bs =>
    if a.toNat < b.toNat then true
    else if b.toNat < a.toNat then false
    else listLe as bs

/-- The order on strings used by Python `sorted`. -/
def strLe (a b : String) : Prop := listLe a.data b.data = true

instance : DecidableRel strLe := fun _ _ => inferInstanceAs (Decidable (_ = true))

theorem listLe_total (a b : List Char) : listLe a b = true ∨ listLe b a = true := by
  induction a generalizing b with
  | nil => left; rfl
  | cons x xs ih =>
    cases b with
    | nil => right; rfl
    | cons y ys =>
      simp only [listLe]
      rcases Nat.lt_trichotomy x.toNat y.toNat with h | h | h
      · left; simp [h]
      · rcases ih ys with h2 | h2 <;> simp_all
      · right; simp [h, Nat.lt_asymm h]

theorem listLe_cons_iff (a b : Char) (as bs : List Char) :
    listLe (a :: as) (b :: bs) = true ↔
      a.toNat < b.toNat ∨ (a.toNat = b.toNat ∧ listLe as bs = true) := by
  simp only [listLe]
  by_cases h1 : a.toNat < b.toNat
  · simp [h1]
  · by_cases h2 : b.toNat < a.toNat
    · constructor
      · intro hf; simp [h1, h2] at hf
      · rintro (h | ⟨he, _⟩) <;> omega
    · have he : a.toNat = b.toNat := by omega
      simp [h1, h2, he]

theorem listLe_trans {a b c : List Char} (h1 : listLe a b = true) (h2 : listLe b c = true) :
    listLe a c = true := by
  induction a generalizing b c with
  | nil => rfl
  | cons x xs ih =>
    cases b with
    | nil => simp [listLe] at h1
    | cons y ys =>
      cases c with
      | nil => simp [listLe] at h2
      | cons z zs =>
        rw [listLe_cons_iff] at h1 h2 ⊢
        rcases h1 with h1 | ⟨h1e, h1r⟩ <;> rcases h2 with h2 | ⟨h2e, h2r⟩
        · left; omega
        · left; omega
        · left; omega
        · right; exact ⟨h1e.trans h2e, ih h1r h2r⟩

theorem char_eq_of_toNat_eq {a b : Char} (h : a.toNat = b.toNat) : a = b :=
  Char.eq_of_val_eq (UInt32.eq_of_toBitVec_eq (BitVec.eq_of_toNat_eq h))

theorem listLe_antisymm {a b : List Char} (h1 : listLe a b = true) (h2 : listLe b a = true) :
    a = b := by
  induction a generalizing b with
  | nil =>
    cases b with
    | nil => rfl
    | cons y ys => simp [listLe] at h2
  | cons x xs ih =>
    cases b with
    | nil => simp [listLe] at h1
    | cons y ys =>
      rw [listLe_cons_iff] at h1 h2
      rcases h1 with h1 | ⟨h1e, h1r⟩ <;> rcases h2 with h2 | ⟨h2e, h2r⟩
      · omega
      · omega
      · omega
      · rw [char_eq_of_toNat_eq h1e, ih h1r h2r]

theorem strLe_total (a b : String) : strLe a b ∨ strLe b a := listLe_total a.data b.data

theorem strLe_trans {a b c : String} (h1 : strLe a b) (h2 : strLe b c) : strLe a c :=
  listLe_trans h1 h2

theorem strLe_antisymm {a b : String} (h1 : strLe a b) (h2 : strLe b a) : a = b := by
  cases a; cases b
  exact congrArg String.mk (listLe_antisymm h1 h2)

instance : IsTotal String strLe := ⟨strLe_total⟩

instance : IsTrans String strLe := ⟨fun _ _ _ => strLe_trans⟩

instance : IsAntisymm String strLe := ⟨fun _ _ => strLe_antisymm⟩

instance : IsRefl String strLe := ⟨fun a => (strLe_total a a).elim id id⟩

/-- Sorting a multiset of strings into the unique `strLe`-sorted list
(insertion sort is structurally recursive, hence kernel-computable). -/
def sortMultiset (m : Multiset String) : List String :=
  Quot.liftOn m (fun l => List.insertionSort strLe l) fun a b h =>
    List.eq_of_perm_of_sorted
      ((List.perm_insertionSort strLe a).trans
        (h.trans (List.perm_insertionSort strLe b).symm))
      (List.sorted_insertionSort strLe a)
      (List.sorted_insertionSort strLe b)

theorem sortMultiset_sorted (m : Multiset String) : List.Sorted strLe (sortMultiset m) :=
  Quot.inductionOn m fun l => List.sorted_insertionSort strLe l

theorem sortMultiset_coe (m : Multiset String) : (sortMultiset m : Multiset String) = m :=
  Quot.inductionOn m fun l => Quot.sound (List.perm_insertionSort strLe l)

/-- Python `sorted` applied to a set of strings: the unique `strLe`-sorted
enumeration of the finite set. -/
def pySorted (s : Finset String) : List String := sortMultiset s.val

theorem pySorted_sorted (s : Finset String) : List.Sorted strLe (pySorted s) :=
  sortMultiset_sorted s.val

theorem mem_pySorted (s : Finset String) (x : String) : x ∈ pySorted s ↔ x ∈ s := by
  simp only [pySorted]
  rw [← Multiset.mem_coe, sortMultiset_coe]
  exact Iff.rfl

theorem pySorted_toFinset (s : Finset String) : (pySorted s).toFinset = s := by
  ext x
  rw [List.mem_toFinset, mem_pySorted]

theorem pySorted_eq_nil_iff (s : Finset String) : pySorted s = [] ↔ s = ∅ := by
  constructor
  · intro h
    ext x
    simp only [Finset.not_mem_empty, iff_false]
    intro hx
    rw [← mem_pySorted s x, h] at hx
    exact absurd hx (List.not_mem_nil x)
  · intro h
    subst h
    rfl

/-- Python `",".join`. -/
def joinComma : List String → String
  | [] => ""
  | [x] => x
  | x :: y :: xs => x ++ "," ++ joinComma (y :: xs)

/-! ### Module catalogue model (`product_template.py`)

A `product.template` record of SaaS type "module" carries a technical
name and a many2many list of direct dependency modules
(`saas_dependency_ids`); dependencies are themselves module templates, so
the type is an inductive tree. -/

/-- A module product template: technical name and direct dependencies
(`technical_name` / `saas_dependency_ids` on `product.template`). -/
inductive Tmpl where
  | mk (technical_name : String) (saas_dependency_ids : List Tmpl)

/-- Field accessor `technical_name`. -/
def Tmpl.technical_name : Tmpl → String
  | .mk n _ => n

/-- Field accessor `saas_dependency_ids`. -/
def Tmpl.saas_dependency_ids : Tmpl → List Tmpl
  | .mk _ deps => deps

/-- Installation-line state (`saas.instance.module.line.state`). -/
inductive LineState where
  | pending
  | installed
  | failed
deriving DecidableEq

/-- An installation line (`saas.instance.module.line`).  `product_modules`
is `some ms` when `product_id` is set and `ms` is the bundle template's
`saas_module_ids`; `module_tmpl` is `some t` when `module_id` is set with
product template `t`. -/
structure ModuleLine where
  product_modules : Option (List Tmpl)
  module_tmpl : Option Tmpl
  state : LineState
  log : String

/-- Add one module's technical name and the names of its direct
dependencies to the accumulated set (the loop body shared by both
branches of `_get_all_technical_names`). -/
def addModuleNames (acc : Finset String) (t : Tmpl) : Finset String :=
  t.saas_dependency_ids.foldl (fun a d => insert d.technical_name a)
    (insert t.technical_name acc)

/-- `SaasInstanceModuleLine._get_all_technical_names`: the set of
technical module names for one line, one dependency level deep. -/
def getAllTechnicalNames (line : ModuleLine) : Finset String :=
  match line.product_modules with
  | some mods => mods.foldl addModuleNames ∅
  | none =>
    match line.module_tmpl with
    | some t => addModuleNames ∅ t
    | none => ∅

/-- The one-level expansion of a single module: its technical name plus
the technical names of its direct dependencies (spec §4.2, stated
declaratively). -/
def oneLevelExpansion (t : Tmpl) : Finset String :=
  insert t.technical_name (t.saas_dependency_ids.map Tmpl.technical_name).toFinset

theorem mem_foldl_insert (ds : List Tmpl) (acc : Finset String) (x : String) :
    x ∈ ds.foldl (fun a d => insert d.technical_name a) acc ↔
      x ∈ acc ∨ ∃ d ∈ ds, x = d.technical_name := by
  induction ds generalizing acc with
  | nil => simp
  | cons d ds ih =>
    simp only [List.foldl_cons, ih, Finset.mem_insert, List.mem_cons]
    constructor
    · rintro ((h | h) | ⟨e, he, hx⟩)
      · exact Or.inr ⟨d, Or.inl rfl, h⟩
      · exact Or.inl h
      · exact Or.inr ⟨e, Or.inr he, hx⟩
    · rintro (h | ⟨e, (he | he), hx⟩)
      · exact Or.inl (Or.inr h)
      · exact Or.inl (Or.inl (he ▸ hx))
      · exact Or.inr ⟨e, he, hx⟩

theorem addModuleNames_eq (acc : Finset String) (t : Tmpl) :
    addModuleNames acc t = acc ∪ oneLevelExpansion t := by
  ext x
  simp only [addModuleNames, mem_foldl_insert, oneLevelExpansion, Finset.mem_union,
    Finset.mem_insert, List.mem_toFinset, List.mem_map]
  constructor
  · rintro ((h | h) | ⟨d, hd, hx⟩)
    · exact Or.inr (Or.inl h)
    · exact Or.inl h
    · exact Or.inr (Or.inr ⟨d, hd, hx.symm⟩)
  · rintro (h | (h | ⟨d, hd, hx⟩))
    · exact Or.inl (Or.inr h)
    · exact Or.inl (Or.inl h)
    · exact Or.inr ⟨d, hd, hx.symm⟩

/-- Union of a list of finite sets, written as the left fold Python's
repeated in-place union produces. -/
def unionOf (l : List (Finset String)) : Finset String := l.foldl (· ∪ ·) ∅

theorem foldl_union_eq (l : List (Finset String)) (s : Finset String) :
    l.foldl (· ∪ ·) s = s ∪ unionOf l := by
  induction l generalizing s with
  | nil => simp [unionOf]
  | cons a as ih =>
    simp only [List.foldl_cons, unionOf]
    rw [ih (s ∪ a), show (∅ ∪ a : Finset String) = a from Finset.empty_union a,
      ih a, Finset.union_assoc]

theorem foldl_addModuleNames_eq (mods : List Tmpl) (acc : Finset String) :
    mods.foldl addModuleNames acc = acc ∪ unionOf (mods.map oneLevelExpansion) := by
  induction mods generalizing acc with
  | nil => simp [unionOf]
  | cons m ms ih =>
    simp only [List.foldl_cons, List.map_cons]
    rw [ih, addModuleNames_eq]
    have h2 : unionOf (oneLevelExpansion m :: ms.map oneLevelExpansion)
        = oneLevelExpansion m ∪ unionOf (ms.map oneLevelExpansion) := by
      simp only [unionOf, List.foldl_cons]
      rw [show (∅ ∪ oneLevelExpansion m : Finset String) = oneLevelExpansion m from
        Finset.empty_union _, foldl_union_eq]
      rfl
    rw [h2, Finset.union_assoc]

/-- Declarative description of `_get_all_technical_names` for all three
line shapes. -/
theorem getAllTechnicalNames_module (t : Tmpl) (st : LineState) (lg : String) :
    getAllTechnicalNames ⟨none, some t, st, lg⟩ = oneLevelExpansion t := by
  simp only [getAllTechnicalNames, addModuleNames_eq, Finset.empty_union]

theorem getAllTechnicalNames_bundle (mods : List Tmpl) (mt : Option Tmpl)
    (st : LineState) (lg : String) :
    getAllTechnicalNames ⟨some mods, mt, st, lg⟩ = unionOf (mods.map oneLevelExpansion) := by
  simp only [getAllTechnicalNames, foldl_addModuleNames_eq, Finset.empty_union]

/-! ### More Python string primitives -/

/-- Python whitespace test for `str.strip`. -/
def isWs (c : Char) : Bool := c == ' ' || c == '\t' || c == '\n' || c == '\r'

/-- Python `str.strip()`. -/
def pyStrip (s : String) : String :=
  ⟨((s.data.dropWhile isWs).reverse.dropWhile isWs).reverse⟩

/-- Per-character substitution lifted to a string (used for Python
`str.replace` with single-character patterns). -/
def mapChars (f : Char → Char) (s : String) : String := ⟨s.data.map f⟩

/-- Per-character expansion lifted to a string (used for Python
`str.replace` where the replacement has several characters, such as
doubling single quotes for SQL). -/
def expandChars (f : Char → List Char) (s : String) : String := ⟨s.data.flatMap f⟩

/-- Keep only the characters satisfying `p` (Python
`''.join(c for c in s if p(c))`). -/
def filterChars (p : Char → Bool) (s : String) : String := ⟨s.data.filter p⟩

/-- Python `s[-n:]`: the last `n` characters (all of `s` when shorter). -/
def pyTail (n : Nat) (s : String) : String := ⟨s.data.drop (s.data.length - n)⟩

/-- Python `s.rstrip('/')`. -/
def rstripSlash (s : String) : String :=
  ⟨(s.data.reverse.dropWhile (fun c => c == '/')).reverse⟩

/-- Python `needle in hay` on strings: `pre` is a reflexive-style prefix
test on character lists. -/
def isPrefOf : List Char → List Char → Bool
  | [], _ => true
  | _ :: _, [] => false
  | a :: as, b :: bs => a == b && isPrefOf as bs

/-- Substring occurrence test on character lists. -/
def isSubOf (needle : List Char) : List Char → Bool
  | [] => isPrefOf needle []
  | b :: bs => isPrefOf needle (b :: bs) || isSubOf needle bs

/-- Python `needle in hay` for strings. -/
def strContains (hay needle : String) : Bool := isSubOf needle.data hay.data

/-- Python `int(s)` restricted to the non-negative decimal strings the
port fields hold; any other string fails to parse (the source swallows
the `ValueError`). -/
def pyParseNat (s : String) : Option Nat :=
  if s.data ≠ [] ∧ s.data.all (fun c => c.isDigit) then
    some (s.data.foldl (fun n c => 10 * n + (c.toNat - 48)) 0)
  else none

/-- Decimal rendering of a number, Python `str(n)` / `'%s' % n`. -/
def natToStr (n : Nat) : String := toString n

/-! ### Pending lines and the two module-installation command builders
(`_do_deploy` lines 548–572, `action_install_modules` lines 816–836) -/

/-- `self.module_line_ids.filtered(lambda l: l.state == 'pending')`. -/
def pendingOf (lines : List ModuleLine) : List ModuleLine :=
  lines.filter (fun l => l.state = LineState.pending)

/-- The running union `all_module_names` accumulated over the pending
lines in `_do_deploy`. -/
def allModuleNames (lines : List ModuleLine) : Finset String :=
  (pendingOf lines).foldl (fun acc l => acc ∪ getAllTechnicalNames l) ∅

/-- `modules_to_install` as built in `_do_deploy`: the literal `'base'`
when no pending line contributes any name, otherwise
`'base,%s' % ','.join(sorted(all_module_names - {'base'}))`. -/
def modulesToInstall (lines : List ModuleLine) : String :=
  let all := allModuleNames lines
  if all = ∅ then "base"
  else "base," ++ joinComma (pySorted (all.erase "base"))

/-- The sorted name list `sorted(module_names)` joined for one line in
`action_install_modules`. -/
def lineNames (line : ModuleLine) : List String := pySorted (getAllTechnicalNames line)

/-- `names_str = ','.join(sorted(module_names))` in
`action_install_modules`. -/
def lineNamesStr (line : ModuleLine) : String := joinComma (lineNames line)

/-! ### Port allocator (`_auto_assign_ports`, lines 360–402)

The Python `while candidate < 65535` loop advances by 2 until a pair is
free; it is encoded with a fuel argument large enough that fuel can
never run out before the candidate reaches the ceiling (each iteration
adds 2 to the candidate, so 32768 iterations always suffice), which
keeps the function structurally recursive and kernel-computable. -/

/-- One encoded run of the scan loop: `some c` when the loop breaks at
free candidate `c`, `none` when the candidate reaches 65535. -/
def findFreePair (used : Finset Nat) : Nat → Nat → Option Nat
  | 0, _ => none
  | fuel + 1, candidate =>
    if candidate < 65535 then
      if candidate ∉ used ∧ candidate + 1 ∉ used then some candidate
      else findFreePair used fuel (candidate + 2)
    else none

/-- The scan loop of `_auto_assign_ports` starting at `start`. -/
def searchPortPair (used : Finset Nat) (start : Nat) : Option Nat :=
  findFreePair used 32768 start

theorem findFreePair_zero (used : Finset Nat) (candidate : Nat) :
    findFreePair used 0 candidate = none := rfl

theorem findFreePair_succ (used : Finset Nat) (fuel candidate : Nat) :
    findFreePair used (fuel + 1) candidate =
      if candidate < 65535 then
        if candidate ∉ used ∧ candidate + 1 ∉ used then some candidate
        else findFreePair used fuel (candidate + 2)
      else none := rfl

theorem findFreePair_fuel_irrel (used : Finset Nat) (f g candidate : Nat)
    (hf : 65535 ≤ candidate + 2 * f) (hg : 65535 ≤ candidate + 2 * g) :
    findFreePair used f candidate = findFreePair used g candidate := by
  induction f generalizing g candidate with
  | zero =>
    cases g with
    | zero => rfl
    | succ g =>
      rw [findFreePair_zero, findFreePair_succ, if_neg (by omega)]
  | succ f ih =>
    cases g with
    | zero =>
      rw [findFreePair_zero, findFreePair_succ, if_neg (by omega)]
    | succ g =>
      rw [findFreePair_succ, findFreePair_succ]
      by_cases hc : candidate < 65535
      · rw [if_pos hc, if_pos hc]
        by_cases hfree : candidate ∉ used ∧ candidate + 1 ∉ used
        · rw [if_pos hfree, if_pos hfree]
        · rw [if_neg hfree, if_neg hfree, ih g (candidate + 2) (by omega) (by omega)]
      · rw [if_neg hc, if_neg hc]

theorem searchPortPair_unfold (used : Finset Nat) (start : Nat) :
    searchPortPair used start =
      if start < 65535 then
        if start ∉ used ∧ start + 1 ∉ used then some start
        else searchPortPair used (start + 2)
      else none := by
  by_cases hc : start < 65535
  · by_cases hfree : start ∉ used ∧ start + 1 ∉ used
    · rw [if_pos hc, if_pos hfree]
      show findFreePair used (32767 + 1) start = some start
      rw [findFreePair_succ, if_pos hc, if_pos hfree]
    · rw [if_pos hc, if_neg hfree]
      show findFreePair used (32767 + 1) start = searchPortPair used (start + 2)
      rw [findFreePair_succ, if_pos hc, if_neg hfree]
      exact findFreePair_fuel_irrel used 32767 32768 (start + 2) (by omega) (by omega)
  · rw [if_neg hc]
    show findFreePair used (32767 + 1) start = none
    rw [findFreePair_succ, if_neg hc]

theorem searchPortPair_some (used : Finset Nat) (start c : Nat)
    (h : searchPortPair used start = some c) :
    start ≤ c ∧ (c - start) % 2 = 0 ∧ c ∉ used ∧ c + 1 ∉ used ∧ c < 65535 := by
  unfold searchPortPair at h
  generalize hf : 32768 = f at h
  have hfuel : 65535 ≤ start + 2 * f := by omega
  clear hf
  induction f generalizing start with
  | zero => exact Option.noConfusion (findFreePair_zero used start ▸ h)
  | succ f ih =>
    rw [findFreePair_succ] at h
    by_cases hc : start < 65535
    · rw [if_pos hc] at h
      by_cases hfree : start ∉ used ∧ start + 1 ∉ used
      · rw [if_pos hfree] at h
        cases h
        exact ⟨Nat.le_refl _, by omega, hfree.1, hfree.2, hc⟩
      · rw [if_neg hfree] at h
        obtain ⟨h1, h2, h3, h4, h5⟩ := ih (start + 2) h (by omega)
        exact ⟨by omega, by omega, h3, h4, h5⟩
    · rw [if_neg hc] at h
      cases h

theorem searchPortPair_none (used : Finset Nat) (start : Nat) :
    searchPortPair used start = none ↔
      ∀ k, start ≤ k → k < 65535 → (k - start) % 2 = 0 → k ∈ used ∨ k + 1 ∈ used := by
  unfold searchPortPair
  generalize hf : 32768 = f
  have hfuel : 65535 ≤ start + 2 * f := by omega
  clear hf
  induction f generalizing start with
  | zero =>
    rw [findFreePair_zero]
    simp only [true_iff]
    intro k hk1 hk2 _
    omega
  | succ f ih =>
    rw [findFreePair_succ]
    by_cases hc : start < 65535
    · rw [if_pos hc]
      by_cases hfree : start ∉ used ∧ start + 1 ∉ used
      · rw [if_pos hfree]
        constructor
        · intro h
          exact absurd h (by simp)
        · intro h
          exfalso
          rcases h start (Nat.le_refl _) hc (by omega) with h1 | h1
          · exact hfree.1 h1
          · exact hfree.2 h1
      · rw [if_neg hfree]
        have hih := ih (start + 2) (by omega)
        refine hih.trans ⟨?_, ?_⟩
        · intro h k hk1 hk2 hk3
          by_cases hks : k = start
          · subst hks
            by_cases h1 : k ∈ used
            · exact Or.inl h1
            · right
              by_contra h2
              exact hfree ⟨h1, h2⟩
          · exact h k (by omega) hk2 (by omega)
        · intro h k hk1 hk2 hk3
          exact h k (by omega) hk2 (by omega)
    · rw [if_neg hc]
      simp only [true_iff]
      intro k hk1 hk2 _
      omega

/-! ### Data model: servers, partners, versions, instances -/

/-- Python exceptions relevant to the orchestrator: Odoo's `UserError`
and `ValidationError`, and any other exception (`other`). -/
inductive PyError where
  | userError (msg : String)
  | validationError (msg : String)
  | other (msg : String)
deriving DecidableEq

/-- The message carried by an exception (`str(e)`). -/
def PyError.msg : PyError → String
  | .userError m => m
  | .validationError m => m
  | .other m => m

/-- Instance lifecycle state (`saas.instance.state`). -/
inductive SState where
  | draft
  | provisioning
  | running
  | stopped
  | failed
  | suspended
  | cancelled
deriving DecidableEq

/-- `ssh_connect_using` selection on both server models. -/
inductive ConnectMode where
  | public_ip
  | private_ip
deriving DecidableEq

/-- `saas.ssh.key.pair`: the Binary private-key field is `""` when
absent (Odoo falsy). -/
structure SshKeyPair where
  private_key_file : String
  key_type : String
deriving DecidableEq

/-- `saas.container.physical.server`.  Char fields are `""` when unset. -/
structure ContainerServer where
  name : String
  ssh_key_pair : Option SshKeyPair
  ssh_user : String
  ssh_port : Nat
  ip_v4 : String
  private_ip_v4 : String
  ssh_connect_using : ConnectMode
  docker_base_path : String
deriving DecidableEq

/-- `saas.psql.physical.server`. -/
structure PsqlServer where
  name : String
  ssh_key_pair : Option SshKeyPair
  ssh_user : String
  ssh_port : Nat
  ip_v4 : String
  private_ip_v4 : String
  ssh_connect_using : ConnectMode
  psql_port : Nat
deriving DecidableEq

/-- `res.partner` as used by `_get_partner_code`: database id, `ref`
and `name` (both `""` when unset). -/
structure Partner where
  pid : Nat
  ref : String
  pname : String
deriving DecidableEq

/-- `saas.odoo.version`: image coordinates (Char fields, `""` unset). -/
structure OdooVersion where
  docker_image : String
  docker_image_tag : String
deriving DecidableEq

/-- `saas.instance`.  Many2one references are `Option`; Char/Text fields
are `""` when unset; `domain_id` is modelled by the referenced domain's
`name`. -/
structure Instance where
  subdomain : String
  domain_id : Option String
  partner : Option Partner
  docker_server : Option ContainerServer
  db_server : Option PsqlServer
  odoo_version : Option OdooVersion
  xmlrpc_port : String
  longpolling_port : String
  admin_password : String
  db_user : String
  db_password : String
  module_line_ids : List ModuleLine
  installed_module_ids : Finset String
  provisioning_log : String
  extra_config : String
  state : SState

/-- Truthiness of an optional key pair with a non-empty private key
(`not server.ssh_key_pair_id or not server.ssh_key_pair_id.private_key_file`). -/
def keyMissing : Option SshKeyPair → Bool
  | none => true
  | some k => k.private_key_file == ""

/-- Placeholder server used only to total the accessors below; every
deploy path first validates that the reference is set. -/
def emptyContainerServer : ContainerServer :=
  ⟨"", none, "", 0, "", "", ConnectMode.public_ip, ""⟩

def emptyPsqlServer : PsqlServer :=
  ⟨"", none, "", 0, "", "", ConnectMode.public_ip, 0⟩

def emptyPartner : Partner := ⟨0, "", ""⟩

def emptyOdooVersion : OdooVersion := ⟨"", ""⟩

def Instance.dockerSrv (i : Instance) : ContainerServer :=
  i.docker_server.getD emptyContainerServer

def Instance.dbSrv (i : Instance) : PsqlServer :=
  i.db_server.getD emptyPsqlServer

def Instance.partnerD (i : Instance) : Partner := i.partner.getD emptyPartner

def Instance.versionD (i : Instance) : OdooVersion :=
  i.odoo_version.getD emptyOdooVersion

/-! ### Computed fields and naming helpers (`saas_instance.py`) -/

/-- `_compute_url`: `https://<subdomain>.<domain>` when both are set,
else the empty string. -/
def computeUrl (i : Instance) : String :=
  match i.domain_id with
  | some d => if i.subdomain ≠ "" then "https://" ++ i.subdomain ++ "." ++ d else ""
  | none => ""

/-- `_compute_name`. -/
def computeName (i : Instance) : String :=
  match i.domain_id with
  | some d => if i.subdomain ≠ "" then i.subdomain ++ "." ++ d else i.subdomain
  | none => i.subdomain

/-- `_generate_db_user`: `saas_` plus the subdomain with `-` and `.`
normalised to `_`. -/
def generateDbUser (i : Instance) : String :=
  "saas_" ++ mapChars (fun c => if c == '-' || c == '.' then '_' else c) i.subdomain

/-- `_get_partner_code`: `<ref-or-id>_<sanitised-name>`. -/
def partnerCode (i : Instance) : String :=
  let p := i.partnerD
  let code := if p.ref ≠ "" then p.ref else natToStr p.pid
  let safe_name := filterChars (fun c => c.isAlphanum || c == '_')
    (mapChars (fun c => if c == ' ' then '_' else c)
      (mapChars Char.toLower (pyStrip p.pname)))
  code ++ "_" ++ safe_name

/-- `_get_instance_path`. -/
def instancePath (i : Instance) : String :=
  rstripSlash i.dockerSrv.docker_base_path ++ "/" ++ partnerCode i ++ "/" ++ i.subdomain

/-- `_get_container_name`. -/
def containerName (i : Instance) : String := "odoo_" ++ i.subdomain

/-- `_append_log`: append one timestamped line; `ts` is the rendering of
`datetime.now()` supplied by the environment. -/
def appendLog (ts : String) (i : Instance) (message : String) : Instance :=
  { i with provisioning_log := i.provisioning_log ++ "[" ++ ts ++ "] " ++ message ++ "\n" }

/-- Python `'\n'.join`. -/
def joinNl : List String → String
  | [] => ""
  | [x] => x
  | x :: y :: xs => x ++ "\n" ++ joinNl (y :: xs)

/-- `_validate_deploy_fields`: the list of error messages accumulated in
source order; the deploy raises `ValidationError` when non-empty. -/
def validateDeployFields (i : Instance) : List String :=
  (if i.subdomain = "" then ["Subdomain is required."] else []) ++
  (if i.docker_server = none then ["Docker Server is required."] else []) ++
  (if i.db_server = none then ["Database Server is required."] else []) ++
  (if i.odoo_version = none then ["Odoo Version is required."] else []) ++
  (if i.partner = none then ["Customer is required."] else []) ++
  (if i.odoo_version = none ∨ i.versionD.docker_image = "" then
    ["Docker image is not set on the selected Odoo version."] else []) ++
  (if i.odoo_version = none ∨ i.versionD.docker_image_tag = "" then
    ["Docker image tag is not set on the selected Odoo version."] else []) ++
  (match i.docker_server with
   | none => []
   | some server =>
     (if keyMissing server.ssh_key_pair then
       ["Docker server SSH key pair with private key is required."] else []) ++
     (if server.ssh_connect_using = ConnectMode.private_ip ∧ server.private_ip_v4 = "" then
       ["Docker server Private IP is required (SSH is set to use Private IP)."]
      else if server.ssh_connect_using = ConnectMode.public_ip ∧ server.ip_v4 = "" then
       ["Docker server Public IP address is required."]
      else [])) ++
  (match i.db_server with
   | none => []
   | some psql =>
     (if keyMissing psql.ssh_key_pair then
       ["Database server SSH key pair with private key is required."] else []) ++
     (if psql.ssh_connect_using = ConnectMode.private_ip ∧ psql.private_ip_v4 = "" then
       ["Database server Private IP is required (SSH is set to use Private IP)."]
      else if psql.ssh_connect_using = ConnectMode.public_ip ∧ psql.ip_v4 = "" then
       ["Database server Public IP address is required."]
      else []) ++
     (if psql.private_ip_v4 = "" ∧ psql.ip_v4 = "" then
       ["Database server needs at least one IP address for db_host configuration."] else []))

/-- `_auto_assign_ports`: no-op when both ports are already set,
otherwise assign the first free pair found from `start`, or raise
`ValidationError` when the scan reaches the TCP port ceiling. -/
def autoAssignPorts (start : Nat) (used : Finset Nat) (i : Instance) :
    Except PyError Instance :=
  if i.xmlrpc_port ≠ "" ∧ i.longpolling_port ≠ "" then .ok i
  else
    match searchPortPair used start with
    | some c =>
      .ok { i with xmlrpc_port := natToStr c, longpolling_port := natToStr (c + 1) }
    | none =>
      .error (.validationError
        ("No available port pair found on server '" ++ i.dockerSrv.name ++ "'."))

/-- The loop body of the used-port collection in `_auto_assign_ports`:
add each of the sibling's two port fields when set and parsable. -/
def addPorts (acc : Finset Nat) (s : Instance) : Finset Nat :=
  let acc2 := if s.xmlrpc_port ≠ "" then
      match pyParseNat s.xmlrpc_port with
      | some n => insert n acc
      | none => acc
    else acc
  if s.longpolling_port ≠ "" then
    match pyParseNat s.longpolling_port with
    | some n => insert n acc2
    | none => acc2
  else acc2

/-- The used-port set built by `_auto_assign_ports` from the sibling
instances on the same Docker server (the search filters on a set
`xmlrpc_port`; unparsable values are skipped). -/
def usedPortsOf (siblings : List Instance) : Finset Nat :=
  (siblings.filter (fun s => s.xmlrpc_port ≠ "")).foldl addPorts ∅

theorem mem_addPorts (acc : Finset Nat) (s : Instance) (n : Nat) :
    n ∈ addPorts acc s ↔ n ∈ acc ∨
      (s.xmlrpc_port ≠ "" ∧ pyParseNat s.xmlrpc_port = some n) ∨
      (s.longpolling_port ≠ "" ∧ pyParseNat s.longpolling_port = some n) := by
  simp only [addPorts]
  rcases hx : pyParseNat s.xmlrpc_port with _ | a <;>
    rcases hy : pyParseNat s.longpolling_port with _ | b <;>
    by_cases h1 : s.xmlrpc_port = "" <;> by_cases h2 : s.longpolling_port = "" <;>
    simp [h1, h2, hx, hy, Finset.mem_insert] <;> tauto

theorem mem_foldl_addPorts (l : List Instance) (acc : Finset Nat) (n : Nat) :
    n ∈ l.foldl addPorts acc ↔ n ∈ acc ∨ ∃ s ∈ l,
      (s.xmlrpc_port ≠ "" ∧ pyParseNat s.xmlrpc_port = some n) ∨
      (s.longpolling_port ≠ "" ∧ pyParseNat s.longpolling_port = some n) := by
  induction l generalizing acc with
  | nil => simp
  | cons s ss ih =>
    simp only [List.foldl_cons, ih, mem_addPorts, List.mem_cons]
    aesop

theorem pyParseNat_ne_empty {s : String} {n : Nat} (h : pyParseNat s = some n) :
    s ≠ "" := by
  intro he
  rw [he, show pyParseNat "" = none from by decide] at h
  exact Option.noConfusion h

/-! ### Remote command builders (string formatting in `saas_instance.py`) -/

def mkdirCmd (path : String) : String :=
  "mkdir -p " ++ path ++ "/addons " ++ path ++ "/config " ++ path ++ "/data/odoo"

def permsCmd (path : String) : String :=
  "chown -R 1000:1000 " ++ path ++ "/data/odoo " ++ path ++ "/config " ++ path ++
    "/addons && chmod -R 777 " ++ path ++ "/data/odoo " ++ path ++ "/config " ++
    path ++ "/addons"

/-- The SQL body of `_provision_postgresql` with the password escaped by
single-quote doubling. -/
def roleSqlScript (user sqlPassword : String) : String :=
  "DO $body$\nBEGIN\n  IF NOT EXISTS (SELECT FROM pg_roles WHERE rolname = '" ++ user ++
  "') THEN\n    CREATE ROLE " ++ user ++ " WITH LOGIN PASSWORD '" ++ sqlPassword ++
  "';\n  ELSE\n    ALTER ROLE " ++ user ++ " WITH LOGIN PASSWORD '" ++ sqlPassword ++
  "';\n  END IF;\nEND $body$;\n"

/-- Python `db_password.replace("'", "''")`. -/
def escapeSqlPassword (p : String) : String :=
  expandChars (fun c => if c == '\'' then ['\'', '\''] else [c]) p

def ensureRoleCmd (user sqlPassword : String) : String :=
  "sudo -u postgres psql <<'SAAS_END_SQL'\n" ++ roleSqlScript user sqlPassword ++
    "\nSAAS_END_SQL"

def createDbCmd (db user : String) : String :=
  "sudo -u postgres psql -tc \"SELECT 1 FROM pg_database WHERE datname='" ++ db ++
    "'\" | grep -q 1 || sudo -u postgres createdb -O " ++ user ++ " " ++ db

def initDbCmd (path dbName modules : String) : String :=
  "cd " ++ path ++ " && docker compose run --rm -T odoo odoo -d " ++ dbName ++
    " -i " ++ modules ++ " --without-demo=all --stop-after-init --no-http 2>&1"

def upCmd (path : String) : String :=
  "cd " ++ path ++ " && docker compose up -d 2>&1"

def waitReadyCmd (cname : String) : String :=
  "for i in $(seq 1 30); do " ++
  "  STATUS=$(docker inspect -f \"\x7b\x7b.State.Status\x7d\x7d\" " ++ cname ++
  " 2>/dev/null); " ++
  "  if [ \"$STATUS\" = \"running\" ]; then echo \"READY\"; exit 0; fi; " ++
  "  if [ \"$STATUS\" = \"exited\" ] || [ \"$STATUS\" = \"dead\" ]; then " ++
  "    echo \"FAILED:$STATUS\"; exit 1; " ++
  "  fi; " ++
  "  sleep 2; " ++
  "done; " ++
  "echo \"TIMEOUT\"; exit 1"

def tailLogsCmd (cname : String) : String :=
  "docker logs --tail 50 " ++ cname ++ " 2>&1"

def installCmd (cname dbName modules : String) : String :=
  "docker exec " ++ cname ++ " odoo -d " ++ dbName ++ " -i " ++ modules ++
    " --stop-after-init --no-http 2>&1"

def dropDbCmd (db : String) : String :=
  "sudo -u postgres psql -tc \"SELECT 1 FROM pg_database WHERE datname='" ++ db ++
    "'\" | grep -q 1 && sudo -u postgres dropdb " ++ db

def dropRoleCmd (user : String) : String :=
  "sudo -u postgres psql -tc \"SELECT 1 FROM pg_roles WHERE rolname='" ++ user ++
    "'\" | grep -q 1 && sudo -u postgres dropuser " ++ user

def downCmd (path : String) : String :=
  "cd " ++ path ++ " && docker compose down -v --remove-orphans 2>&1"

def rmDirCmd (path : String) : String := "rm -rf " ++ path

/-! ### Deploy environment and remote-effect model

Remote SSH effects are supplied by an environment: each `execute` call
is a function from the command string to either an exception
(`PyError`, e.g. a transport error) or the `(exitCode, stdout, stderr)`
triple the remote shell returned.  The per-call `timeout=600` keyword
passed by the database-initialization and module-installation call
sites is a separate, signature-level concern treated with the
`SSHConnection.execute` interface model further below. -/

/-- Result of one remote `execute` call. -/
abbrev ExecResult := Except PyError (Int × String × String)

/-- A remote side effect issued during an operation, in order. -/
inductive RemoteOp where
  | dockerExec (cmd : String)
  | dockerWrite (path : String) (content : String)
  | dbExec (cmd : String)
deriving DecidableEq

/-- The ambient world of one orchestration run. -/
structure DeployEnv where
  ts : String
  gen_db_password : String
  gen_admin_password : String
  starting_port : Nat
  used_ports : Finset Nat
  connectDocker : Option PyError
  connectDb : Option PyError
  exec : String → ExecResult
  execDb : String → ExecResult
  writeFileRes : String → String → Option PyError
  renderedCompose : String
  renderedConf : String

/-- Error-carrying result of the guarded deploy body: on error the
mutated instance and the remote operations issued so far are kept (the
Python record keeps all mutations applied before the raise). -/
abbrev StepResult := Except (PyError × Instance × List RemoteOp) (Instance × List RemoteOp)

/-- Step: create the instance directory tree. -/
def stepMkdir (env : DeployEnv) : Instance × List RemoteOp → StepResult
  | (i, ops) =>
    let path := instancePath i
    let i := appendLog env.ts i ("Creating directory structure at " ++ path)
    let cmd := mkdirCmd path
    let ops := ops ++ [RemoteOp.dockerExec cmd]
    match env.exec cmd with
    | .error e => .error (e, i, ops)
    | .ok (code, _, errS) =>
      if code ≠ 0 then
        .error (.userError ("Failed to create directories:\n" ++ errS), i, ops)
      else .ok (appendLog env.ts i "Directory structure created.", ops)

/-- Step: set ownership and permissions. -/
def stepPerms (env : DeployEnv) : Instance × List RemoteOp → StepResult
  | (i, ops) =>
    let i := appendLog env.ts i "Setting permissions..."
    let cmd := permsCmd (instancePath i)
    let ops := ops ++ [RemoteOp.dockerExec cmd]
    match env.exec cmd with
    | .error e => .error (e, i, ops)
    | .ok (code, _, errS) =>
      if code ≠ 0 then
        .error (.userError ("Failed to set permissions:\n" ++ errS), i, ops)
      else .ok (appendLog env.ts i "Permissions set.", ops)

/-- Step: render and write `docker-compose.yml`. -/
def stepCompose (env : DeployEnv) : Instance × List RemoteOp → StepResult
  | (i, ops) =>
    let i := appendLog env.ts i "Writing docker-compose.yml..."
    let path := instancePath i ++ "/docker-compose.yml"
    let ops := ops ++ [RemoteOp.dockerWrite path env.renderedCompose]
    match env.writeFileRes path env.renderedCompose with
    | some e => .error (e, i, ops)
    | none => .ok (appendLog env.ts i "docker-compose.yml written.", ops)

/-- Step: render and write `odoo.conf`. -/
def stepConf (env : DeployEnv) : Instance × List RemoteOp → StepResult
  | (i, ops) =>
    let i := appendLog env.ts i "Writing odoo.conf..."
    let path := instancePath i ++ "/config/odoo.conf"
    let ops := ops ++ [RemoteOp.dockerWrite path env.renderedConf]
    match env.writeFileRes path env.renderedConf with
    | some e => .error (e, i, ops)
    | none => .ok (appendLog env.ts i "odoo.conf written.", ops)

/-- Step: `_provision_postgresql` (role then database, on the database
server's own session), bracketed by the deploy-level log lines. -/
def stepProvisionDb (env : DeployEnv) : Instance × List RemoteOp → StepResult
  | (i, ops) =>
    let i := appendLog env.ts i "Creating PostgreSQL role and database..."
    match i.db_server with
    | none => .error (.userError "No database server configured on this instance.", i, ops)
    | some _ =>
      match env.connectDb with
      | some e => .error (e, i, ops)
      | none =>
        let user := i.db_user
        let i := appendLog env.ts i ("Ensuring PostgreSQL role '" ++ user ++ "'...")
        let roleCmd := ensureRoleCmd user (escapeSqlPassword i.db_password)
        let ops := ops ++ [RemoteOp.dbExec roleCmd]
        match env.execDb roleCmd with
        | .error e => .error (e, i, ops)
        | .ok (code, out, errS) =>
          let i := appendLog env.ts i
            ("Role command result: exit=" ++ toString code ++ " stdout=" ++ pyStrip out ++
              " stderr=" ++ pyStrip errS)
          if code ≠ 0 then
            .error (.userError
              ("Failed to create/update PostgreSQL role '" ++ user ++ "':\n" ++ errS), i, ops)
          else
            let db := i.subdomain
            let i := appendLog env.ts i ("Ensuring database '" ++ db ++ "'...")
            let dbCmd := createDbCmd db user
            let ops := ops ++ [RemoteOp.dbExec dbCmd]
            match env.execDb dbCmd with
            | .error e => .error (e, i, ops)
            | .ok (code2, out2, errS2) =>
              let i := appendLog env.ts i
                ("DB command result: exit=" ++ toString code2 ++ " stdout=" ++ pyStrip out2 ++
                  " stderr=" ++ pyStrip errS2)
              if code2 ≠ 0 then
                .error (.userError
                  ("Failed to create database '" ++ db ++ "':\n" ++ errS2), i, ops)
              else .ok (appendLog env.ts i "PostgreSQL role and database ready.", ops)

/-- Step: one-shot database initialisation with the combined module
set.  (The source also passes `timeout=600` here; see the
`SSHConnection.execute` signature model.) -/
def stepInitDb (env : DeployEnv) : Instance × List RemoteOp → StepResult
  | (i, ops) =>
    let modules := modulesToInstall i.module_line_ids
    let i := appendLog env.ts i ("Initializing Odoo database with modules: " ++ modules)
    let cmd := initDbCmd (instancePath i) i.subdomain modules
    let ops := ops ++ [RemoteOp.dockerExec cmd]
    match env.exec cmd with
    | .error e => .error (e, i, ops)
    | .ok (code, out, errS) =>
      let i := appendLog env.ts i ("DB init output (last 1000 chars):\n" ++ pyTail 1000 out)
      if code ≠ 0 then
        .error (.userError
          ("Database initialization failed:\n" ++ pyTail 500 out ++ "\n" ++ pyTail 500 errS),
          i, ops)
      else .ok (appendLog env.ts i "Database initialized successfully.", ops)

/-- The module identifiers a line contributes to the installed set. -/
def lineProducts (l : ModuleLine) : Finset String :=
  match l.product_modules with
  | some ms => (ms.map Tmpl.technical_name).toFinset
  | none =>
    match l.module_tmpl with
    | some t => {t.technical_name}
    | none => ∅

/-- Step (pure): mark every pending line `installed` and accumulate the
installed module set. -/
def stepMarkLines (_env : DeployEnv) : Instance × List RemoteOp → StepResult
  | (i, ops) =>
    let contributed := unionOf ((pendingOf i.module_line_ids).map lineProducts)
    let lines := i.module_line_ids.map
      (fun l => if l.state = LineState.pending then { l with state := LineState.installed } else l)
    .ok ({ i with module_line_ids := lines,
                  installed_module_ids := i.installed_module_ids ∪ contributed }, ops)

/-- Step: start the long-lived container. -/
def stepUp (env : DeployEnv) : Instance × List RemoteOp → StepResult
  | (i, ops) =>
    let i := appendLog env.ts i "Starting container with docker compose up -d..."
    let cmd := upCmd (instancePath i)
    let ops := ops ++ [RemoteOp.dockerExec cmd]
    match env.exec cmd with
    | .error e => .error (e, i, ops)
    | .ok (code, out, errS) =>
      let i := appendLog env.ts i ("docker compose up output:\n" ++ out ++ "\n" ++ errS)
      if code ≠ 0 then
        .error (.userError ("docker compose up failed:\n" ++ out ++ "\n" ++ errS), i, ops)
      else .ok (appendLog env.ts i "Container started.", ops)

/-- Step: poll container status until ready. -/
def stepWait (env : DeployEnv) : Instance × List RemoteOp → StepResult
  | (i, ops) =>
    let i := appendLog env.ts i "Waiting for container to be ready..."
    let cname := containerName i
    let cmd := waitReadyCmd cname
    let ops := ops ++ [RemoteOp.dockerExec cmd]
    match env.exec cmd with
    | .error e => .error (e, i, ops)
    | .ok (code, out, _) =>
      if code ≠ 0 ∨ strContains out "READY" = false then
        let logsCmd := tailLogsCmd cname
        let ops := ops ++ [RemoteOp.dockerExec logsCmd]
        match env.exec logsCmd with
        | .error e => .error (e, i, ops)
        | .ok (_, logsOut, _) =>
          let i := appendLog env.ts i
            ("Container failed to start.\nContainer logs:\n" ++ logsOut)
          .error (.userError
            ("Container did not become ready within 60 seconds.\nContainer logs:\n" ++ logsOut),
            i, ops)
      else .ok (appendLog env.ts i "Container is running.", ops)

/-- The guarded body of `_do_deploy` (everything inside `try`), starting
with entering the Docker server's SSH session. -/
def deployBody (env : DeployEnv) (i : Instance) : StepResult :=
  match env.connectDocker with
  | some e => .error (e, i, [])
  | none =>
    stepMkdir env (i, []) >>= stepPerms env >>= stepCompose env >>= stepConf env >>=
      stepProvisionDb env >>= stepInitDb env >>= stepMarkLines env >>= stepUp env >>=
      stepWait env

/-- The wrapping applied in the `except` clause of `_do_deploy`: any
exception that is not already a `UserError`/`ValidationError` is
re-raised as a `UserError` naming the subdomain. -/
def wrapDeployError (sub : String) : PyError → PyError
  | .other m => .userError ("Deployment failed for '" ++ sub ++ "':\n" ++ m)
  | e => e

/-- The lazy credential generation at the head of `_do_deploy`: fill
`db_user`, `db_password` and `admin_password` when unset. -/
def fillCreds (env : DeployEnv) (inst : Instance) : Instance :=
  let i1 := if inst.db_user = "" then { inst with db_user := generateDbUser inst } else inst
  let i2 := if i1.db_password = "" then { i1 with db_password := env.gen_db_password } else i1
  if i2.admin_password = "" then { i2 with admin_password := env.gen_admin_password } else i2

/-- `_do_deploy` for one record: validation, credential fill-in, port
allocation, then the guarded provisioning sequence; returns the final
record, the remote operations issued, and the raised exception if any. -/
def doDeploy (env : DeployEnv) (inst : Instance) :
    Instance × List RemoteOp × Option PyError :=
  let errs := validateDeployFields inst
  if errs ≠ [] then (inst, [], some (.validationError (joinNl errs)))
  else
    let i3 := fillCreds env inst
    match autoAssignPorts env.starting_port env.used_ports i3 with
    | .error e => (i3, [], some e)
    | .ok i4 =>
      let i5 := { i4 with provisioning_log := "", state := SState.provisioning }
      match deployBody env i5 with
      | .ok (i6, ops) =>
        let i7 := { i6 with state := SState.running }
        (appendLog env.ts i7 "Deployment completed successfully. State: running.", ops, none)
      | .error (e, i6, ops) =>
        let i7 := appendLog env.ts { i6 with state := SState.failed }
          ("DEPLOYMENT FAILED: " ++ e.msg)
        (i7, ops, some (wrapDeployError inst.subdomain e))

/-! ### Lifecycle actions -/

/-- `action_cancel` for one record: the single assignment
`rec.state = 'cancelled'`. -/
def actionCancel (i : Instance) : Instance := { i with state := SState.cancelled }

/-- `action_draft` for one record: allowed only from `failed` or
`cancelled`, raising `UserError` (before any mutation) otherwise. -/
def actionDraft (i : Instance) : Except PyError Instance :=
  if i.state = SState.failed ∨ i.state = SState.cancelled then
    .ok { i with state := SState.draft }
  else .error (.userError "Can only reset to draft from 'Failed' or 'Cancelled' state.")

/-- `ContainerServer._get_ssh_ip`. -/
def getSshIp (s : ContainerServer) : Except PyError String :=
  if s.ssh_connect_using = ConnectMode.private_ip then
    if s.private_ip_v4 = "" then
      .error (.validationError
        ("Private IP address is required on server '" ++ s.name ++
          "' when SSH is set to use Private IP."))
    else .ok s.private_ip_v4
  else if s.ip_v4 = "" then
    .error (.validationError ("Public IP address is required on server '" ++ s.name ++ "'."))
  else .ok s.ip_v4

/-- `_ensure_can_ssh`: raises when the Docker server, its key material
or its connect-mode IP is missing. -/
def ensureCanSsh (i : Instance) : Option PyError :=
  match i.docker_server with
  | none => some (.validationError "No Docker server configured.")
  | some server =>
    if keyMissing server.ssh_key_pair then
      some (.validationError
        ("SSH key pair with private key is required on server '" ++ server.name ++ "'."))
    else
      match getSshIp server with
      | .error e => some e
      | .ok _ => none

/-- `_drop_postgresql`: best-effort teardown — both drop statements are
issued with their results discarded; no database server configured means
no remote action at all. -/
def dropPostgresql (env : DeployEnv) (i : Instance) : List RemoteOp × Option PyError :=
  match i.db_server with
  | none => ([], none)
  | some _ =>
    match env.connectDb with
    | some e => ([], some e)
    | none =>
      if i.subdomain ≠ "" then
        let cmd1 := dropDbCmd i.subdomain
        match env.execDb cmd1 with
        | .error e => ([RemoteOp.dbExec cmd1], some e)
        | .ok _ =>
          if i.db_user ≠ "" then
            let cmd2 := dropRoleCmd i.db_user
            match env.execDb cmd2 with
            | .error e => ([RemoteOp.dbExec cmd1, RemoteOp.dbExec cmd2], some e)
            | .ok _ => ([RemoteOp.dbExec cmd1, RemoteOp.dbExec cmd2], none)
          else ([RemoteOp.dbExec cmd1], none)
      else
        if i.db_user ≠ "" then
          let cmd2 := dropRoleCmd i.db_user
          match env.execDb cmd2 with
          | .error e => ([RemoteOp.dbExec cmd2], some e)
          | .ok _ => ([RemoteOp.dbExec cmd2], none)
        else ([], none)

/-- `action_delete_instance` for one record: compose down (result
ignored), remove the directory tree (failure is fatal), best-effort
database teardown, then `state = 'cancelled'`. -/
def actionDeleteInstance (env : DeployEnv) (i : Instance) :
    Instance × List RemoteOp × Option PyError :=
  match ensureCanSsh i with
  | some e => (i, [], some e)
  | none =>
    match env.connectDocker with
    | some e => (i, [], some e)
    | none =>
      let path := instancePath i
      let cmd1 := downCmd path
      let ops := [RemoteOp.dockerExec cmd1]
      match env.exec cmd1 with
      | .error e => (i, ops, some e)
      | .ok _ =>
        let cmd2 := rmDirCmd path
        let ops := ops ++ [RemoteOp.dockerExec cmd2]
        match env.exec cmd2 with
        | .error e => (i, ops, some e)
        | .ok (code, _, errS) =>
          if code ≠ 0 then
            (i, ops, some (.userError
              ("Failed to remove instance directory '" ++ path ++ "':\n" ++ errS)))
          else
            let (dops, de) := dropPostgresql env i
            match de with
            | some e => (i, ops ++ dops, some e)
            | none => ({ i with state := SState.cancelled }, ops ++ dops, none)

/-- The per-line loop of `action_install_modules`: `done` is the prefix
of already-processed lines, `todo` the remainder; the record's line list
always reflects the mutations applied so far. -/
def installLoop (env : DeployEnv) (cname dbName : String) :
    List ModuleLine → List ModuleLine → Instance → List RemoteOp →
    Instance × List RemoteOp × Option PyError
  | _, [], i, ops => (i, ops, none)
  | done, l :: rest, i, ops =>
    if l.state = LineState.pending then
      let names := getAllTechnicalNames l
      if names = ∅ then
        let l2 := { l with state := LineState.failed, log := "No modules found for this line." }
        let i2 := { i with module_line_ids := done ++ l2 :: rest }
        installLoop env cname dbName (done ++ [l2]) rest i2 ops
      else
        let namesStr := joinComma (pySorted names)
        let i1 := appendLog env.ts i ("Installing modules: " ++ namesStr)
        let cmd := installCmd cname dbName namesStr
        match env.connectDocker with
        | some e => (i1, ops, some e)
        | none =>
          let ops1 := ops ++ [RemoteOp.dockerExec cmd]
          match env.exec cmd with
          | .error e => (i1, ops1, some e)
          | .ok (code, out, errS) =>
            if code ≠ 0 then
              let llog := pyTail 1000 out ++ "\n" ++ pyTail 500 errS
              let l2 := { l with state := LineState.failed, log := llog }
              let i2 := { i1 with module_line_ids := done ++ l2 :: rest }
              let i3 := appendLog env.ts i2
                ("FAILED installing modules: " ++ namesStr ++ "\n" ++ llog)
              installLoop env cname dbName (done ++ [l2]) rest i3 ops1
            else
              let l2 := { l with state := LineState.installed, log := "" }
              let i2 := { i1 with module_line_ids := done ++ l2 :: rest }
              let i3 := appendLog env.ts i2 ("Modules installed successfully: " ++ namesStr)
              let i4 := { i3 with
                installed_module_ids := i3.installed_module_ids ∪ lineProducts l }
              installLoop env cname dbName (done ++ [l2]) rest i4 ops1
    else installLoop env cname dbName (done ++ [l]) rest i ops

/-- `action_install_modules`: SSH preconditions, then each pending line
is resolved and installed independently inside the already running
container; a line's non-zero exit marks only that line `failed`.  (The
source also passes `timeout=600`; see the `SSHConnection.execute`
signature model.) -/
def actionInstallModules (env : DeployEnv) (i : Instance) :
    Instance × List RemoteOp × Option PyError :=
  match ensureCanSsh i with
  | some e => (i, [], some e)
  | none =>
    if (pendingOf i.module_line_ids).isEmpty then
      (i, [], some (.userError "No pending modules to install."))
    else installLoop env (containerName i) i.subdomain [] i.module_line_ids i []

/-! ### The remote executor's call signature (`utils.py`)

`SSHConnection.execute(self, command)` takes exactly one per-call
argument; the session-wide timeout is fixed at construction
(`SSH_COMMAND_TIMEOUT`).  The deploy-time database-initialization call
and the post-deploy module-installation call both pass a keyword
argument `timeout=600`, which Python resolves against the parameter
list before anything reaches the remote host. -/

/-- Default command timeout constant (`SSH_COMMAND_TIMEOUT`). -/
def SSH_COMMAND_TIMEOUT : Nat := 120

/-- The non-`self` parameter names of `SSHConnection.execute`. -/
def executeParamNames : List String := ["command"]

/-- The keyword arguments used by the call site
`ssh.execute(init_cmd, timeout=600)` in `_do_deploy`. -/
def deployInitCallKwargs : List String := ["timeout"]

/-- The keyword arguments used by the call site
`ssh.execute(install_cmd, timeout=600)` in `action_install_modules`. -/
def installCallKwargs : List String := ["timeout"]

/-- Python keyword-argument binding: a call is well formed only when
every keyword names a declared parameter; otherwise the call raises
`TypeError` before the function body runs. -/
def callKwargsWellFormed (params kwargs : List String) : Bool :=
  kwargs.all (fun k => params.contains k)

/-! ### Concrete fixtures used by witnesses and counterexamples -/

def sampleKey : SshKeyPair := ⟨"KEY", "rsa"⟩

def sampleDocker : ContainerServer :=
  ⟨"docker1", some sampleKey, "root", 22, "1.2.3.4", "", ConnectMode.public_ip, "/home/odoo"⟩

def samplePsql : PsqlServer :=
  ⟨"db1", some sampleKey, "root", 22, "5.6.7.8", "10.0.0.8", ConnectMode.public_ip, 5432⟩

def samplePartner : Partner := ⟨7, "C7", "Acme"⟩

def sampleVersion : OdooVersion := ⟨"odoo", "18.0"⟩

/-- A pending line referencing module `crm` with one direct dependency
`sale`. -/
def crmLine : ModuleLine :=
  ⟨none, some (Tmpl.mk "crm" [Tmpl.mk "sale" []]), LineState.pending, ""⟩

def sampleInstance : Instance :=
  ⟨"acme", some "example.com", some samplePartner, some sampleDocker, some samplePsql,
   some sampleVersion, "", "", "", "", "", [crmLine], ∅, "", "", SState.draft⟩

/-- An environment in which every remote command succeeds and the
readiness poll reports `READY`. -/
def happyEnv : DeployEnv :=
  ⟨"TS", "PW1", "PW2", 32000, ∅, none, none,
   fun _ => Except.ok (0, "READY", ""), fun _ => Except.ok (0, "", ""),
   fun _ _ => none, "COMPOSE", "CONF"⟩

/-- An environment in which every Docker-host command exits non-zero. -/
def failEnv : DeployEnv :=
  { happyEnv with exec := fun _ => Except.ok (1, "", "boom") }

/-- An environment in which both drop statements exit non-zero ("does
not exist"). -/
def droppyEnv : DeployEnv :=
  { happyEnv with execDb := fun _ => Except.ok (1, "", "does not exist") }

/-- `sampleInstance` with the required subdomain left empty. -/
def invalidInstance : Instance := { sampleInstance with subdomain := "" }

def failedInstance : Instance := { sampleInstance with state := SState.failed }

def runningInstance : Instance := { sampleInstance with state := SState.running }

/-- A sibling instance already holding the pair (32000, 32001). -/
def siblingInstance : Instance :=
  { sampleInstance with xmlrpc_port := "32000", longpolling_port := "32001" }

/-- A pending line referencing module `crm` with one direct dependency
`account`, whose name sorts before `base`. -/
def accountLine : ModuleLine :=
  ⟨none, some (Tmpl.mk "crm" [Tmpl.mk "account" []]), LineState.pending, ""⟩

/-- `sampleInstance` with a database user set (as after provisioning). -/
def provInstance : Instance := { sampleInstance with db_user := "saas_acme" }

/-- `sampleInstance` without a database server. -/
def noDbInstance : Instance := { sampleInstance with db_server := none }

/-! ### Shared helper lemmas for the claim theorems -/

theorem insert_erase_self (a : String) (s : Finset String) :
    insert a (s.erase a) = insert a s := by
  ext x
  simp only [Finset.mem_insert, Finset.mem_erase]
  constructor
  · rintro (h | ⟨_, h⟩)
    · exact Or.inl h
    · exact Or.inr h
  · rintro (h | h)
    · exact Or.inl h
    · by_cases hx : x = a
      · exact Or.inl hx
      · exact Or.inr ⟨hx, h⟩

theorem wrapDeployError_reportable (sub : String) (e : PyError) :
    (∃ m, wrapDeployError sub e = .userError m) ∨
      (∃ m, wrapDeployError sub e = .validationError m) := by
  cases e with
  | userError m => exact Or.inl ⟨m, rfl⟩
  | validationError m => exact Or.inr ⟨m, rfl⟩
  | other m => exact Or.inl ⟨_, rfl⟩

theorem autoAssignPorts_error_eq (start : Nat) (used : Finset Nat) (i : Instance)
    (e : PyError) (h : autoAssignPorts start used i = .error e) :
    e = .validationError
      ("No available port pair found on server '" ++ i.dockerSrv.name ++ "'.") := by
  simp only [autoAssignPorts] at h
  split at h
  · exact absurd h (by simp)
  · split at h
    · exact absurd h (by simp)
    · injection h with h
      exact h.symm

theorem fillCreds_state (env : DeployEnv) (i : Instance) :
    (fillCreds env i).state = i.state := by
  simp only [fillCreds]
  split <;> split <;> split <;> rfl

theorem fillCreds_log (env : DeployEnv) (i : Instance) :
    (fillCreds env i).provisioning_log = i.provisioning_log := by
  simp only [fillCreds]
  split <;> split <;> split <;> rfl

theorem fillCreds_dockerSrv (env : DeployEnv) (i : Instance) :
    (fillCreds env i).docker_server = i.docker_server := by
  simp only [fillCreds]
  split <;> split <;> split <;> rfl

/-! ### Claim theorems -/

/-- C4: the remote executor's `execute` does not accept a per-call
timeout argument — its only non-`self` parameter is `command`, while the
deploy-time database-initialization call and the post-deploy
module-installation call both pass the keyword `timeout`, so those calls
are not well-formed against the declared signature and raise `TypeError`
before anything reaches the remote host.  The session-wide default
timeout is the constructor-time constant 120. -/
theorem spec_C4_execute_timeout_signature :
    callKwargsWellFormed executeParamNames deployInitCallKwargs = false ∧
    callKwargsWellFormed executeParamNames installCallKwargs = false ∧
    "timeout" ∉ executeParamNames ∧
    SSH_COMMAND_TIMEOUT = 120 := by decide

/-- C5: module resolution for a single-module line is exactly the
module's technical name plus the technical names of its direct
dependencies (one level); for a bundle line it is the union of this
one-level expansion over the bundle's modules; and a dependency of a
dependency is never included. -/
theorem spec_C5_resolution_shallow :
    (∀ (t : Tmpl) (st : LineState) (lg : String),
      getAllTechnicalNames ⟨none, some t, st, lg⟩ =
        insert t.technical_name (t.saas_dependency_ids.map Tmpl.technical_name).toFinset) ∧
    (∀ (mods : List Tmpl) (st : LineState) (lg : String),
      getAllTechnicalNames ⟨some mods, none, st, lg⟩ =
        unionOf (mods.map oneLevelExpansion)) ∧
    (∀ (a b c : String) (st : LineState) (lg : String), c ≠ a → c ≠ b →
      c ∉ getAllTechnicalNames
        ⟨none, some (Tmpl.mk a [Tmpl.mk b [Tmpl.mk c []]]), st, lg⟩) := by
  refine ⟨fun t st lg => getAllTechnicalNames_module t st lg,
          fun mods st lg => getAllTechnicalNames_bundle mods none st lg, ?_⟩
  intro a b c st lg hca hcb h
  rw [getAllTechnicalNames_module] at h
  simp only [oneLevelExpansion, Tmpl.technical_name, Tmpl.saas_dependency_ids,
    List.map_cons, List.map_nil, List.toFinset_cons, List.toFinset_nil,
    Finset.mem_insert, Finset.not_mem_empty, or_false, insert_emptyc_eq,
    Finset.mem_singleton] at h
  rcases h with h | h
  · exact hca h
  · exact hcb h

/-- Witness for C5: resolving module `a` whose dependency `b` itself
depends on `c` does not include `c`. -/
theorem spec_C5_resolution_shallow_witness :
    "c" ∉ getAllTechnicalNames
      ⟨none, some (Tmpl.mk "a" [Tmpl.mk "b" [Tmpl.mk "c" []]]), LineState.pending, ""⟩ :=
  spec_C5_resolution_shallow.2.2 "a" "b" "c" LineState.pending "" (by decide) (by decide)

/-- C8: the reset-to-draft action succeeds (producing the same record
with state `draft`) exactly when the prior state is `failed` or
`cancelled`, and from every other state it raises `UserError` without
returning a mutated record. -/
theorem spec_C8_reset_draft_iff :
    ∀ i : Instance,
      ((∃ i2, actionDraft i = .ok i2) ↔
        (i.state = SState.failed ∨ i.state = SState.cancelled)) ∧
      (∀ i2, actionDraft i = .ok i2 → i2 = { i with state := SState.draft }) ∧
      ((i.state = SState.failed ∨ i.state = SState.cancelled) →
        actionDraft i = .ok { i with state := SState.draft }) ∧
      (¬(i.state = SState.failed ∨ i.state = SState.cancelled) →
        actionDraft i = .error (.userError
          "Can only reset to draft from 'Failed' or 'Cancelled' state.")) := by
  intro i
  by_cases h : i.state = SState.failed ∨ i.state = SState.cancelled
  · refine ⟨⟨fun _ => h, fun _ => ⟨{ i with state := SState.draft }, by simp [actionDraft, h]⟩⟩, ?_, ?_, ?_⟩
    · intro i2 h2
      simp only [actionDraft, if_pos h] at h2
      injection h2 with h2
      exact h2.symm
    · intro _
      simp [actionDraft, h]
    · intro hn
      exact absurd h hn
  · refine ⟨⟨?_, fun hh => absurd hh h⟩, ?_, fun hh => absurd hh h,
      fun _ => by simp [actionDraft, h]⟩
    · rintro ⟨i2, h2⟩
      simp [actionDraft, h] at h2
    · intro i2 h2
      simp [actionDraft, h] at h2

/-- Witness for C8: reset succeeds from `failed` and fails from
`running`. -/
theorem spec_C8_reset_draft_iff_witness :
    actionDraft failedInstance = .ok { failedInstance with state := SState.draft } ∧
    actionDraft runningInstance = .error (.userError
      "Can only reset to draft from 'Failed' or 'Cancelled' state.") :=
  ⟨(spec_C8_reset_draft_iff failedInstance).2.2.1 (by decide),
   (spec_C8_reset_draft_iff runningInstance).2.2.2 (by decide)⟩

/-- C10: the cancel action sets `state = cancelled` unconditionally
from every prior state, changes no other field, and issues no remote
operation (by contrast, the delete action issues container/directory
teardown and a database drop before reaching `cancelled`). -/
theorem spec_C10_cancel_frame :
    (∀ i : Instance,
      (actionCancel i).state = SState.cancelled ∧
      (actionCancel i).subdomain = i.subdomain ∧
      (actionCancel i).domain_id = i.domain_id ∧
      (actionCancel i).partner = i.partner ∧
      (actionCancel i).docker_server = i.docker_server ∧
      (actionCancel i).db_server = i.db_server ∧
      (actionCancel i).odoo_version = i.odoo_version ∧
      (actionCancel i).xmlrpc_port = i.xmlrpc_port ∧
      (actionCancel i).longpolling_port = i.longpolling_port ∧
      (actionCancel i).admin_password = i.admin_password ∧
      (actionCancel i).db_user = i.db_user ∧
      (actionCancel i).db_password = i.db_password ∧
      (actionCancel i).module_line_ids = i.module_line_ids ∧
      (actionCancel i).installed_module_ids = i.installed_module_ids ∧
      (actionCancel i).provisioning_log = i.provisioning_log ∧
      (actionCancel i).extra_config = i.extra_config) ∧
    (actionDeleteInstance happyEnv sampleInstance).2.1 =
      [RemoteOp.dockerExec (downCmd (instancePath sampleInstance)),
       RemoteOp.dockerExec (rmDirCmd (instancePath sampleInstance)),
       RemoteOp.dbExec (dropDbCmd sampleInstance.subdomain)] ∧
    (actionDeleteInstance happyEnv sampleInstance).1.state = SState.cancelled := by
  refine ⟨fun i => ⟨rfl, rfl, rfl, rfl, rfl, rfl, rfl, rfl, rfl, rfl, rfl, rfl, rfl,
    rfl, rfl, rfl⟩, by decide, by decide⟩

/-- C3: the port scan returns a pair `(c, c+1)` with `c ≥ s`, `c − s`
even, both halves outside the used set; exhaustion below the 65535
ceiling raises the resource error and assigns nothing; and the used set
is exactly the parsed union of both port halves of the sibling
instances. -/
theorem spec_C3_port_allocation :
    (∀ (used : Finset Nat) (s c : Nat), searchPortPair used s = some c →
      s ≤ c ∧ (c - s) % 2 = 0 ∧ c ∉ used ∧ c + 1 ∉ used) ∧
    (∀ (used : Finset Nat) (s : Nat),
      (∀ k, s ≤ k → k < 65535 → (k - s) % 2 = 0 → k ∈ used ∨ k + 1 ∈ used) →
      searchPortPair used s = none) ∧
    (∀ (start : Nat) (used : Finset Nat) (i : Instance) (c : Nat),
      ¬(i.xmlrpc_port ≠ "" ∧ i.longpolling_port ≠ "") →
      searchPortPair used start = some c →
      autoAssignPorts start used i =
        .ok { i with xmlrpc_port := natToStr c, longpolling_port := natToStr (c + 1) }) ∧
    (∀ (start : Nat) (used : Finset Nat) (i : Instance),
      ¬(i.xmlrpc_port ≠ "" ∧ i.longpolling_port ≠ "") →
      searchPortPair used start = none →
      autoAssignPorts start used i = .error (.validationError
        ("No available port pair found on server '" ++ i.dockerSrv.name ++ "'."))) ∧
    (∀ siblings : List Instance,
      (∀ sib ∈ siblings, (∃ a, pyParseNat sib.xmlrpc_port = some a) ∧
        (∃ b, pyParseNat sib.longpolling_port = some b)) →
      ∀ n, n ∈ usedPortsOf siblings ↔ ∃ sib ∈ siblings,
        pyParseNat sib.xmlrpc_port = some n ∨ pyParseNat sib.longpolling_port = some n) := by
  refine ⟨?_, ?_, ?_, ?_, ?_⟩
  · intro used s c h
    obtain ⟨h1, h2, h3, h4, _⟩ := searchPortPair_some used s c h
    exact ⟨h1, h2, h3, h4⟩
  · intro used s h
    rw [searchPortPair_none]
    exact h
  · intro start used i c hset hs
    simp only [autoAssignPorts]
    rw [if_neg hset, hs]
  · intro start used i hset hs
    simp only [autoAssignPorts]
    rw [if_neg hset, hs]
  · intro siblings hall n
    simp only [usedPortsOf]
    rw [mem_foldl_addPorts]
    simp only [Finset.not_mem_empty, false_or, List.mem_filter]
    constructor
    · rintro ⟨sib, ⟨hmem, _⟩, (⟨_, hp⟩ | ⟨_, hp⟩)⟩
      · exact ⟨sib, hmem, Or.inl hp⟩
      · exact ⟨sib, hmem, Or.inr hp⟩
    · rintro ⟨sib, hmem, hor⟩
      obtain ⟨⟨a, ha⟩, ⟨b, hb⟩⟩ := hall sib hmem
      have hx : sib.xmlrpc_port ≠ "" := pyParseNat_ne_empty ha
      have hy : sib.longpolling_port ≠ "" := pyParseNat_ne_empty hb
      refine ⟨sib, ⟨hmem, by simpa using hx⟩, ?_⟩
      rcases hor with hp | hp
      · exact Or.inl ⟨hx, hp⟩
      · exact Or.inr ⟨hy, hp⟩

/-- Witness for C3: allocation from 32000 on an empty used set, failure
at the ceiling, assignment on the sample instance, and the used set of
one sibling holding (32000, 32001). -/
theorem spec_C3_port_allocation_witness :
    (32000 ≤ 32000 ∧ (32000 - 32000) % 2 = 0 ∧ 32000 ∉ (∅ : Finset Nat) ∧
      32000 + 1 ∉ (∅ : Finset Nat)) ∧
    searchPortPair ({65533} : Finset Nat) 65533 = none ∧
    autoAssignPorts 32000 ∅ sampleInstance =
      .ok { sampleInstance with
            xmlrpc_port := natToStr 32000,
            longpolling_port := natToStr (32000 + 1) } ∧
    autoAssignPorts 65533 ({65533} : Finset Nat) sampleInstance = .error (.validationError
      ("No available port pair found on server '" ++ sampleInstance.dockerSrv.name ++ "'.")) ∧
    (32000 ∈ usedPortsOf [siblingInstance] ↔ ∃ sib ∈ [siblingInstance],
      pyParseNat sib.xmlrpc_port = some 32000 ∨
        pyParseNat sib.longpolling_port = some 32000) :=
  ⟨spec_C3_port_allocation.1 ∅ 32000 32000 (by decide),
   spec_C3_port_allocation.2.1 ({65533} : Finset Nat) 65533 (by
     intro k h1 h2 h3
     have hk : k = 65533 := by omega
     subst hk
     exact Or.inl (by decide)),
   spec_C3_port_allocation.2.2.1 32000 ∅ sampleInstance 32000 (by decide) (by decide),
   spec_C3_port_allocation.2.2.2.1 65533 ({65533} : Finset Nat) sampleInstance (by decide) (by decide),
   spec_C3_port_allocation.2.2.2.2 [siblingInstance] (by
     intro sib hs
     rw [List.mem_singleton] at hs
     subst hs
     exact ⟨⟨32000, by decide⟩, ⟨32001, by decide⟩⟩) 32000⟩

/-- C1 counterexample: a line referencing module `crm` with direct
dependency `sale` yields the post-deploy install command `crm,sale`,
which does not contain the base module; and at deploy time a line whose
expansion contains `account` yields `base,account,crm`, which is not the
lexicographically sorted order of the full name set (that would be
`account,base,crm`). -/
theorem spec_C1_counterexample :
    lineNames crmLine = ["crm", "sale"] ∧
    "base" ∉ lineNames crmLine ∧
    lineNamesStr crmLine = "crm,sale" ∧
    modulesToInstall [accountLine] = "base,account,crm" ∧
    joinComma (pySorted {"base", "account", "crm"}) = "account,base,crm" ∧
    ("base,account,crm" : String) ≠ "account,base,crm" :=
  ⟨by decide, by decide, by decide, by decide, by decide, by decide⟩

theorem allModuleNames_singleton (pm : Option (List Tmpl)) (mt : Option Tmpl) (lg : String) :
    allModuleNames [⟨pm, mt, LineState.pending, lg⟩] =
      getAllTechnicalNames ⟨pm, mt, LineState.pending, lg⟩ := by
  simp [allModuleNames, pendingOf, List.filter]

/-- C1 amended: at deploy time the database-initialization command's
module list is `base` followed by the lexicographically sorted union of
all pending lines' expansions with `base` removed — as a set the union
plus `base`, with `base` placed first rather than sorted into position;
the post-deploy install-modules command is built per line and its module
list is exactly that line's expansion sorted lexicographically, with
`base` present only when the line's expansion contains it.  In
particular a line for module `m` with one direct dependency `d` (neither
named `base`) yields deploy-time string `base,` ++ sorted `{m, d}` and
post-deploy list sorted `{m, d}`. -/
theorem spec_C1_amended :
    (∀ lines : List ModuleLine,
      ("base" :: pySorted ((allModuleNames lines).erase "base")).toFinset =
        insert "base" (allModuleNames lines) ∧
      List.Sorted strLe (pySorted ((allModuleNames lines).erase "base")) ∧
      (allModuleNames lines = ∅ → modulesToInstall lines = "base") ∧
      ((allModuleNames lines).erase "base" ≠ ∅ →
        modulesToInstall lines =
          joinComma ("base" :: pySorted ((allModuleNames lines).erase "base")))) ∧
    (∀ line : ModuleLine,
      (lineNames line).toFinset = getAllTechnicalNames line ∧
      List.Sorted strLe (lineNames line) ∧
      lineNamesStr line = joinComma (lineNames line) ∧
      ("base" ∈ lineNames line ↔ "base" ∈ getAllTechnicalNames line)) ∧
    (∀ (m d lg : String), m ≠ "base" → d ≠ "base" →
      getAllTechnicalNames ⟨none, some (Tmpl.mk m [Tmpl.mk d []]), LineState.pending, lg⟩ =
        insert m {d} ∧
      modulesToInstall [⟨none, some (Tmpl.mk m [Tmpl.mk d []]), LineState.pending, lg⟩] =
        "base," ++ joinComma (pySorted (insert m {d})) ∧
      lineNames ⟨none, some (Tmpl.mk m [Tmpl.mk d []]), LineState.pending, lg⟩ =
        pySorted (insert m {d})) := by
  refine ⟨?_, ?_, ?_⟩
  · intro lines
    refine ⟨?_, pySorted_sorted _, ?_, ?_⟩
    · rw [List.toFinset_cons, pySorted_toFinset, insert_erase_self]
    · intro h
      simp only [modulesToInstall]
      rw [if_pos h]
    · intro hne
      have hall : allModuleNames lines ≠ ∅ := by
        intro h0
        rw [h0] at hne
        exact hne (Finset.erase_empty "base")
      obtain ⟨x, xs, hxx⟩ :
          ∃ x xs, pySorted ((allModuleNames lines).erase "base") = x :: xs := by
        rcases hl : pySorted ((allModuleNames lines).erase "base") with _ | ⟨x, xs⟩
        · exact absurd ((pySorted_eq_nil_iff _).mp hl) hne
        · exact ⟨x, xs, rfl⟩
      simp only [modulesToInstall]
      rw [if_neg hall, hxx]
      rw [show joinComma ("base" :: x :: xs) = "base" ++ "," ++ joinComma (x :: xs) from rfl]
      rw [show ("base," : String) = "base" ++ "," from by decide]
  · intro line
    exact ⟨pySorted_toFinset _, pySorted_sorted _, rfl, mem_pySorted _ _⟩
  · intro m d lg hm hd
    have hset : getAllTechnicalNames
        ⟨none, some (Tmpl.mk m [Tmpl.mk d []]), LineState.pending, lg⟩ = insert m {d} := by
      rw [getAllTechnicalNames_module]
      simp [oneLevelExpansion, Tmpl.technical_name, Tmpl.saas_dependency_ids]
    have hall2 : allModuleNames
        [⟨none, some (Tmpl.mk m [Tmpl.mk d []]), LineState.pending, lg⟩] = insert m {d} := by
      rw [allModuleNames_singleton, hset]
    have hne : (insert m ({d} : Finset String)) ≠ ∅ := by
      simp
    have hbase : "base" ∉ insert m ({d} : Finset String) := by
      simp only [Finset.mem_insert, Finset.mem_singleton]
      rintro (h | h)
      · exact hm h.symm
      · exact hd h.symm
    refine ⟨hset, ?_, ?_⟩
    · simp only [modulesToInstall, hall2]
      rw [if_neg hne, Finset.erase_eq_of_not_mem hbase]
    · simp only [lineNames, hset]

/-- Witness for C1 amended: the concrete `crm`/`sale` line. -/
theorem spec_C1_amended_witness :
    getAllTechnicalNames crmLine = insert "crm" {"sale"} ∧
    modulesToInstall [crmLine] = "base," ++ joinComma (pySorted (insert "crm" {"sale"})) ∧
    lineNames crmLine = pySorted (insert "crm" {"sale"}) :=
  spec_C1_amended.2.2 "crm" "sale" "" (by decide) (by decide)

/-- C9: the derived URL is `https://<subdomain>.<domain>` whenever both
are set (so `acme` under `example.com` gives
`https://acme.example.com`), and a deploy that raises no exception ends
with state `running`. -/
theorem spec_C9_url_and_running :
    (∀ (i : Instance) (d : String), i.domain_id = some d → i.subdomain ≠ "" →
      computeUrl i = "https://" ++ i.subdomain ++ "." ++ d) ∧
    (∀ i : Instance, i.subdomain = "acme" → i.domain_id = some "example.com" →
      computeUrl i = "https://acme.example.com") ∧
    (∀ (env : DeployEnv) (inst : Instance),
      (doDeploy env inst).2.2 = none → (doDeploy env inst).1.state = SState.running) := by
  refine ⟨?_, ?_, ?_⟩
  · intro i d hdm hs
    simp [computeUrl, hdm, hs]
  · intro i hs hdm
    simp only [computeUrl, hdm]
    rw [if_pos (by rw [hs]; decide), hs]
    decide
  · intro env inst h
    rcases hd : doDeploy env inst with ⟨i, ops, oe⟩
    rw [hd] at h
    have h2 : oe = none := h
    subst h2
    simp only [doDeploy] at hd
    split at hd
    · exact absurd hd (by simp)
    · split at hd
      · exact absurd hd (by simp)
      · split at hd
        · injection hd with h1 h2
          rw [← h1]
          rfl
        · exact absurd hd (by simp)

/-- Witness for C9: the sample instance under the all-success
environment. -/
theorem spec_C9_url_and_running_witness :
    computeUrl sampleInstance = "https://acme.example.com" ∧
    (doDeploy happyEnv sampleInstance).1.state = SState.running :=
  ⟨spec_C9_url_and_running.2.1 sampleInstance (by decide) (by decide),
   spec_C9_url_and_running.2.2 happyEnv sampleInstance (by decide)⟩

/-- C6: whatever exit codes, stdout and stderr the remote drop-database
and drop-role commands return, the database teardown raises nothing;
with no database server configured it performs no remote action at all;
and with both identifiers set it issues exactly the two independent drop
statements. -/
theorem spec_C6_drop_never_raises :
    (∀ (env : DeployEnv) (i : Instance),
      env.connectDb = none →
      (∀ cmd, ∃ r, env.execDb cmd = .ok r) →
      (dropPostgresql env i).2 = none) ∧
    (∀ (env : DeployEnv) (i : Instance), i.db_server = none →
      dropPostgresql env i = ([], none)) ∧
    (∀ (env : DeployEnv) (i : Instance),
      env.connectDb = none →
      (∀ cmd, ∃ r, env.execDb cmd = .ok r) →
      i.db_server ≠ none → i.subdomain ≠ "" → i.db_user ≠ "" →
      (dropPostgresql env i).1 =
        [RemoteOp.dbExec (dropDbCmd i.subdomain),
         RemoteOp.dbExec (dropRoleCmd i.db_user)]) := by
  refine ⟨?_, ?_, ?_⟩
  · intro env i hconn hexec
    obtain ⟨r1, hr1⟩ := hexec (dropDbCmd i.subdomain)
    obtain ⟨r2, hr2⟩ := hexec (dropRoleCmd i.db_user)
    cases hdb : i.db_server with
    | none => simp [dropPostgresql, hdb]
    | some srv =>
      by_cases hs : i.subdomain = "" <;> by_cases hu : i.db_user = "" <;>
        simp [dropPostgresql, hdb, hconn, hs, hu, hr1, hr2]
  · intro env i hdb
    simp [dropPostgresql, hdb]
  · intro env i hconn hexec hdb hs hu
    obtain ⟨r1, hr1⟩ := hexec (dropDbCmd i.subdomain)
    obtain ⟨r2, hr2⟩ := hexec (dropRoleCmd i.db_user)
    cases hdb2 : i.db_server with
    | none => exact absurd hdb2 hdb
    | some srv => simp [dropPostgresql, hdb2, hconn, hs, hu, hr1, hr2]

/-- Witness for C6: both drop commands exit non-zero ("does not exist")
on an instance with database name and role set, yet teardown raises
nothing and issues both statements; without a database server nothing
happens. -/
theorem spec_C6_drop_never_raises_witness :
    (dropPostgresql droppyEnv provInstance).2 = none ∧
    dropPostgresql droppyEnv noDbInstance = ([], none) ∧
    (dropPostgresql droppyEnv provInstance).1 =
      [RemoteOp.dbExec (dropDbCmd provInstance.subdomain),
       RemoteOp.dbExec (dropRoleCmd provInstance.db_user)] :=
  ⟨spec_C6_drop_never_raises.1 droppyEnv provInstance rfl
     (fun _ => ⟨(1, "", "does not exist"), rfl⟩),
   spec_C6_drop_never_raises.2.1 droppyEnv noDbInstance rfl,
   spec_C6_drop_never_raises.2.2 droppyEnv provInstance rfl
     (fun _ => ⟨(1, "", "does not exist"), rfl⟩) (by decide) (by decide) (by decide)⟩

/-- C7: a deploy invoked with any missing required reference (subdomain,
Docker server, database server, Odoo version, customer, Docker
image/tag, SSH key material, or the IP required by the server's
connect-mode) raises `ValidationError` and returns the record exactly
unchanged, with no remote operation issued. -/
theorem spec_C7_validation_no_side_effects :
    ∀ (env : DeployEnv) (inst : Instance),
      (inst.subdomain = "" ∨ inst.docker_server = none ∨ inst.db_server = none ∨
       inst.odoo_version = none ∨ inst.partner = none ∨
       inst.versionD.docker_image = "" ∨ inst.versionD.docker_image_tag = "" ∨
       (∃ s, inst.docker_server = some s ∧ keyMissing s.ssh_key_pair = true) ∨
       (∃ s, inst.docker_server = some s ∧ s.ssh_connect_using = ConnectMode.private_ip ∧
         s.private_ip_v4 = "") ∨
       (∃ s, inst.docker_server = some s ∧ s.ssh_connect_using = ConnectMode.public_ip ∧
         s.ip_v4 = "") ∨
       (∃ p, inst.db_server = some p ∧ keyMissing p.ssh_key_pair = true) ∨
       (∃ p, inst.db_server = some p ∧ p.ssh_connect_using = ConnectMode.private_ip ∧
         p.private_ip_v4 = "") ∨
       (∃ p, inst.db_server = some p ∧ p.ssh_connect_using = ConnectMode.public_ip ∧
         p.ip_v4 = "")) →
      doDeploy env inst =
        (inst, [], some (.validationError (joinNl (validateDeployFields inst)))) := by
  intro env inst hmiss
  have hne : validateDeployFields inst ≠ [] := by
    rcases hmiss with h | h | h | h | h | h | h | ⟨s, hs, hk⟩ | ⟨s, hs, hm, hi⟩ |
      ⟨s, hs, hm, hi⟩ | ⟨p, hp, hk⟩ | ⟨p, hp, hm, hi⟩ | ⟨p, hp, hm, hi⟩
    · exact List.ne_nil_of_mem (a := "Subdomain is required.")
        (by simp [validateDeployFields, h])
    · exact List.ne_nil_of_mem (a := "Docker Server is required.")
        (by simp [validateDeployFields, h])
    · exact List.ne_nil_of_mem (a := "Database Server is required.")
        (by simp [validateDeployFields, h])
    · exact List.ne_nil_of_mem (a := "Odoo Version is required.")
        (by simp [validateDeployFields, h])
    · exact List.ne_nil_of_mem (a := "Customer is required.")
        (by simp [validateDeployFields, h])
    · exact List.ne_nil_of_mem (a := "Docker image is not set on the selected Odoo version.")
        (by simp [validateDeployFields, h])
    · exact List.ne_nil_of_mem
        (a := "Docker image tag is not set on the selected Odoo version.")
        (by simp [validateDeployFields, h])
    · exact List.ne_nil_of_mem
        (a := "Docker server SSH key pair with private key is required.")
        (by simp [validateDeployFields, hs, hk])
    · exact List.ne_nil_of_mem
        (a := "Docker server Private IP is required (SSH is set to use Private IP).")
        (by simp [validateDeployFields, hs, hm, hi])
    · exact List.ne_nil_of_mem
        (a := "Docker server Public IP address is required.")
        (by simp [validateDeployFields, hs, hm, hi])
    · exact List.ne_nil_of_mem
        (a := "Database server SSH key pair with private key is required.")
        (by simp [validateDeployFields, hp, hk])
    · exact List.ne_nil_of_mem
        (a := "Database server Private IP is required (SSH is set to use Private IP).")
        (by simp [validateDeployFields, hp, hm, hi])
    · exact List.ne_nil_of_mem
        (a := "Database server Public IP address is required.")
        (by simp [validateDeployFields, hp, hm, hi])
  simp only [doDeploy]
  rw [if_pos hne]

/-- Witness for C7: the sample instance without its subdomain. -/
theorem spec_C7_validation_no_side_effects_witness :
    doDeploy happyEnv invalidInstance =
      (invalidInstance, [],
        some (.validationError (joinNl (validateDeployFields invalidInstance)))) :=
  spec_C7_validation_no_side_effects happyEnv invalidInstance (Or.inl (by decide))

/-- C2 counterexample: a deploy that fails in step 1 (validation — here
a missing subdomain) raises, but the instance's state stays `draft`
rather than becoming `failed`, and nothing is appended to the
provisioning log — contradicting the claim that every exception in
steps 1–11 yields a persisted `failed` record with the error logged. -/
theorem spec_C2_counterexample :
    (doDeploy happyEnv invalidInstance).2.2 =
      some (.validationError "Subdomain is required.") ∧
    (doDeploy happyEnv invalidInstance).1.state = SState.draft ∧
    (doDeploy happyEnv invalidInstance).1.state ≠ SState.failed ∧
    (doDeploy happyEnv invalidInstance).1.provisioning_log = "" ∧
    strContains (doDeploy happyEnv invalidInstance).1.provisioning_log
      "DEPLOYMENT FAILED" = false :=
  ⟨by decide, by decide, by decide, by decide, by decide⟩

/-- C2 amended: every raised deploy error is a `UserError` or
`ValidationError`, and the failure falls in exactly one of three
classes: (a) it arose inside the guarded provisioning block (steps
5–11), in which case the final state is `failed` and the log gains a
timestamped `DEPLOYMENT FAILED: <original error>` line, with the error
re-raised wrapped as a `UserError` naming the subdomain unless it
already was a `UserError`/`ValidationError`; (b) it is a validation
failure (step 1), raised before any mutation or remote call, leaving
the record exactly unchanged; or (c) it is the port-allocation
resource failure (step 3), raised before the provisioning block with
state and log untouched (credentials may already have been filled) and
no remote call issued. -/
theorem spec_C2_amended :
    ∀ (env : DeployEnv) (inst : Instance) (e : PyError),
      (doDeploy env inst).2.2 = some e →
      (((∃ m, e = .userError m) ∨ (∃ m, e = .validationError m)) ∧
       (((doDeploy env inst).1.state = SState.failed ∧
         ∃ e0 pre, e = wrapDeployError inst.subdomain e0 ∧
           (doDeploy env inst).1.provisioning_log =
             pre ++ "[" ++ env.ts ++ "] " ++ ("DEPLOYMENT FAILED: " ++ e0.msg) ++ "\n") ∨
        ((doDeploy env inst).1 = inst ∧ (doDeploy env inst).2.1 = [] ∧
         e = .validationError (joinNl (validateDeployFields inst))) ∨
        ((doDeploy env inst).1.state = inst.state ∧
         (doDeploy env inst).1.provisioning_log = inst.provisioning_log ∧
         (doDeploy env inst).2.1 = [] ∧
         e = .validationError
           ("No available port pair found on server '" ++ inst.dockerSrv.name ++ "'.")))) := by
  intro env inst e he
  rcases hd : doDeploy env inst with ⟨i, ops, oe⟩
  rw [hd] at he
  have he2 : oe = some e := he
  subst he2
  simp only [doDeploy] at hd
  split at hd
  · -- validation failure
    injection hd with h1 h2
    injection h2 with h2a h2b
    injection h2b with h3
    subst h1
    subst h2a
    subst h3
    exact ⟨Or.inr ⟨_, rfl⟩, Or.inr (Or.inl ⟨rfl, rfl, rfl⟩)⟩
  · split at hd
    · -- port allocation failure
      rename_i e2 hport
      injection hd with h1 h2
      injection h2 with h2a h2b
      injection h2b with h3
      subst h1
      subst h2a
      have hee := autoAssignPorts_error_eq _ _ _ _ hport
      have he3 : e = e2 := h3.symm
      subst he3
      have hsrv : (fillCreds env inst).dockerSrv = inst.dockerSrv := by
        simp only [Instance.dockerSrv, fillCreds_dockerSrv]
      refine ⟨Or.inr ⟨_, by rw [hee, hsrv]⟩, Or.inr (Or.inr ?_)⟩
      exact ⟨fillCreds_state env inst, fillCreds_log env inst, rfl, by rw [hee, hsrv]⟩
    · split at hd
      · -- success: contradicts oe = some e
        injection hd with h1 h2
        injection h2 with h2a h2b
        exact absurd h2b.symm (by simp)
      · -- failure inside the guarded block
        rename_i e0 i6 ops6 hbody
        injection hd with h1 h2
        injection h2 with h2a h2b
        have he3 : e = wrapDeployError inst.subdomain e0 := by
          injection h2b.symm
        subst he3
        subst h1
        exact ⟨wrapDeployError_reportable _ _,
          Or.inl ⟨rfl, e0, i6.provisioning_log, rfl, rfl⟩⟩

/-- Witness for C2 amended: an environment whose first remote command
exits non-zero makes the deploy fail inside the guarded block, and the
applied theorem shows the raised error is reportable. -/
theorem spec_C2_amended_witness :
    (∃ m, (PyError.userError "Failed to create directories:\nboom") = .userError m) ∨
    (∃ m, (PyError.userError "Failed to create directories:\nboom") = .validationError m) :=
  (spec_C2_amended failEnv sampleInstance
    (.userError "Failed to create directories:\nboom") (by decide)).1

end SaasCore
